import Mathlib

/-!
Verification model of the `cimc_redfish` Home Assistant integration.

The Python sources embedded here:
- `custom_components/cimc_redfish/coordinator.py` (`CimcRedfishClient`)
- `custom_components/cimc_redfish/config_flow.py` (`ConfigFlow._async_validate`)
- `custom_components/cimc_redfish/helpers.py` (`normalize_name`)
- `custom_components/cimc_redfish/entities/fan.py`, `entities/psu.py`,
  `entities/temperature.py` (unique-id construction)

JSON/Python values are modelled by `PyVal`; Python floats are modelled as
exact rationals (every decimal literal the device can send is finite); a
raised exception is the `Except.error` case of `Except PyErr`.  The HTTP
layer (`requests.Session.get`) is an oracle `Net` mapping a URL to either a
request-level exception or a response carrying a status code and an
optional decoded JSON body (`Option.none` body = JSON decode failure).
-/

/-- A Python/JSON value as handled by the client: `None`, bools, ints,
floats (exact rationals), strings, lists and string-keyed dicts. -/
inductive PyVal where
  | none
  | bool (b : Bool)
  | int (n : Int)
  | float (q : Rat)
  | str (s : String)
  | arr (xs : List PyVal)
  | obj (fs : List (String × PyVal))

/-- Python truthiness (`bool(v)`). -/
def pyTruthy : PyVal → Bool
  | .none => false
  | .bool b => b
  | .int n => n != 0
  | .float q => q != 0
  | .str s => s ≠ ""
  | .arr xs => !xs.isEmpty
  | .obj fs => !fs.isEmpty

/-- Python `a or b`: `a` when truthy, else `b`. -/
def pyOr (a b : PyVal) : PyVal := if pyTruthy a then a else b

/-- Dict lookup with `None` default, as `dict.get(k)`.  A JSON object with
a duplicated key decodes (as `json.loads` does) to the last binding, which
the right fold picks out. -/
def objGet (fs : List (String × PyVal)) (k : String) : PyVal :=
  fs.foldl (fun acc kv => if kv.1 = k then kv.2 else acc) PyVal.none

/-- Key membership test, as `k in d`. -/
def objHas (fs : List (String × PyVal)) (k : String) : Bool :=
  fs.any (fun kv => kv.1 = k)

/-- Python `str(v)`.  Container reprs are abbreviated: only scalar values
ever reach an interpolation site in the modelled code paths. -/
def pyStrOf : PyVal → String
  | .none => "None"
  | .bool b => if b then "True" else "False"
  | .int n => toString n
  | .float q => toString q.num ++ "/" ++ toString q.den
  | .str s => s
  | .arr _ => "[...]"
  | .obj _ => "\x7b...\x7d"

/-- Python whitespace recognised by `str.strip()` / numeric-literal
stripping (ASCII subset). -/
def isSpaceCh (c : Char) : Bool :=
  c = ' ' || c = '\t' || c = '\n' || c = '\r' || c = '\x0b' || c = '\x0c'

/-- Python `str.strip()` (ASCII whitespace). -/
def pyStrip (s : String) : String :=
  (((s.toList.dropWhile isSpaceCh).reverse.dropWhile isSpaceCh).reverse).asString

/-- Digit run with Python underscore grouping: underscores may appear only
between digits (`int("1_0")` is legal, `int("1__0")`/`int("1_")` are not).
Returns the digits with separators removed. -/
def undDigits : List Char → Option (List Char)
  | [] => some []
  | '_' :: c :: cs =>
      if c.isDigit then (undDigits cs).map (fun ds => c :: ds) else Option.none
  | ['_'] => Option.none
  | c :: cs =>
      if c.isDigit then (undDigits cs).map (fun ds => c :: ds) else Option.none

/-- Numeric value of a digit list. -/
def digitsVal (ds : List Char) : Nat :=
  ds.foldl (fun acc c => acc * 10 + (c.toNat - '0'.toNat)) 0

/-- Nonempty digit run (leading char must be a digit, then `undDigits`). -/
def parseDigits (cs : List Char) : Option Nat :=
  match cs with
  | [] => Option.none
  | c :: _ => if c.isDigit then (undDigits cs).map digitsVal else Option.none

/-- Python `int(s)` on a string: strip whitespace, optional sign, decimal
digits with underscore grouping (ASCII digits; base-10 literals only, which
is all `int(...)` is applied to here). -/
def pyParseInt (s : String) : Option Int :=
  match (pyStrip s).toList with
  | '+' :: rest => (parseDigits rest).map (fun n => (n : Int))
  | '-' :: rest => (parseDigits rest).map (fun n => -(n : Int))
  | rest => (parseDigits rest).map (fun n => (n : Int))

/-- Splits a char list at the first occurrence of any of the given
separator chars. -/
def splitAtCh (seps : List Char) (cs : List Char) : (List Char × Option (List Char)) :=
  match cs with
  | [] => ([], Option.none)
  | c :: rest =>
      if seps.contains c then ([], some rest)
      else
        let (pre, post) := splitAtCh seps rest
        (c :: pre, post)

/-- Digit run that may also be empty, with underscore grouping. -/
def parseDigitsOpt (cs : List Char) : Option (Nat × Nat) :=
  match cs with
  | [] => some (0, 0)
  | c :: _ =>
      if c.isDigit then (undDigits cs).map (fun ds => (digitsVal ds, ds.length))
      else Option.none

/-- Python `float(s)` on a string, as an exact rational: strip, optional
sign, `digits [. digits] [(e|E) [sign] digits]` with at least one mantissa
digit.  IEEE specials (`inf`, `nan`) fall outside the rational value model
and are rejected; the device never sends them. -/
def pyParseFloat (s : String) : Option Rat :=
  let core : List Char → Option Rat := fun cs =>
    let (sign, body) : Int × List Char :=
      match cs with
      | '+' :: rest => (1, rest)
      | '-' :: rest => (-1, rest)
      | rest => (1, rest)
    let (mant, expPart) := splitAtCh ['e', 'E'] body
    let (ipart, fpartOpt) := splitAtCh ['.'] mant
    match parseDigitsOpt ipart with
    | Option.none => Option.none
    | some (iv, il) =>
      let fparsed : Option (Nat × Nat) :=
        match fpartOpt with
        | Option.none => some (0, 0)
        | some f => parseDigitsOpt f
      match fparsed with
      | Option.none => Option.none
      | some (fv, fl) =>
        if il = 0 ∧ fl = 0 then Option.none
        else
          let eparsed : Option Int :=
            match expPart with
            | Option.none => some 0
            | some ec =>
              match ec with
              | '+' :: rest => (parseDigits rest).map (fun n => (n : Int))
              | '-' :: rest => (parseDigits rest).map (fun n => -(n : Int))
              | rest => (parseDigits rest).map (fun n => (n : Int))
          match eparsed with
          | Option.none => Option.none
          | some e =>
            let m : Int := sign * ((iv * 10 ^ fl + fv : Nat) : Int)
            let d : Int := e - (fl : Int)
            some (if 0 ≤ d then mkRat (m * 10 ^ d.toNat) 1 else mkRat m (10 ^ (-d).toNat))
  core (pyStrip s).toList

/-- Python `int(float)`: truncation toward zero. -/
def ratTrunc (q : Rat) : Int := if 0 ≤ q then Rat.floor q else Rat.ceil q

/-- Python builtin `int(v)` as used on `_num` inputs: `Option.none` stands
for the raised `ValueError`/`TypeError`. -/
def pyIntFn : PyVal → Option Int
  | .bool b => some (if b then 1 else 0)
  | .int n => some n
  | .float q => some (ratTrunc q)
  | .str s => pyParseInt s
  | _ => Option.none

/-- Python builtin `float(v)`: `Option.none` stands for the raised
`ValueError`/`TypeError`. -/
def pyFloatFn : PyVal → Option Rat
  | .bool b => some (mkRat (if b then 1 else 0) 1)
  | .int n => some (mkRat n 1)
  | .float q => some q
  | .str s => pyParseFloat s
  | _ => Option.none

/-- Membership test `v in (None, "", "N/A")` at the top of `_num`. -/
def isAbsentSentinel : PyVal → Bool
  | .none => true
  | .str "" => true
  | .str "N/A" => true
  | _ => false

/-- `CimcRedfishClient._num` (coordinator.py:106-116): sentinel check, then
`int(v)`, then `float(v)`, else `None`. -/
def _num (v : PyVal) : PyVal :=
  if isAbsentSentinel v then .none
  else
    match pyIntFn v with
    | some n => .int n
    | Option.none =>
      match pyFloatFn v with
      | some q => .float q
      | Option.none => .none

/-- The recurring `MemberID` coercion: `int(mid) if mid is not None else
None`, keeping the raw value on `TypeError`/`ValueError`. -/
def coerceMemberId (mid : PyVal) : PyVal :=
  match mid with
  | .none => .none
  | v =>
    match pyIntFn v with
    | some n => .int n
    | Option.none => v

example : _num (.str "123") = .int 123 := rfl
example : _num (.str "12.5") = .float (mkRat 25 2) := rfl
example : _num (.str "abc") = .none := rfl
example : _num (.str "N/A") = .none := rfl
example : _num (.float (mkRat 25 2)) = .int 12 := rfl
example : _num (.float (mkRat (-25) 2)) = .int (-12) := rfl
example : coerceMemberId (.str "3") = .int 3 := rfl
example : coerceMemberId (.str "A1") = .str "A1" := rfl

/-!
HTTP layer.  `requests` exception classes actually distinguishable by the
code, with their hierarchy (as defined in `requests/exceptions.py`):
`SSLError ⊂ ConnectionError`, `ConnectTimeout ⊂ ConnectionError ∩ Timeout`,
`ReadTimeout ⊂ Timeout`, and `HTTPError`, `ConnectionError`, `Timeout` all
subclass `RequestException`.
-/

/-- Exceptions that `requests.Session.get` itself can raise. -/
inductive NetErr where
  | sslError
  | connectTimeout
  | readTimeout
  | connectionError
  | otherRequest
  deriving DecidableEq

/-- Exceptions observable in the modelled code paths. -/
inductive PyErr where
  | sslError
  | connectTimeout
  | readTimeout
  | connectionError
  | otherRequest
  | httpBad (status : Nat)
  | jsonDecode
  | runtime (msg : String)
  | attrError
  | typeErr
  | keyErr
  | indexErr
  deriving DecidableEq

def netErrToPy : NetErr → PyErr
  | .sslError => .sslError
  | .connectTimeout => .connectTimeout
  | .readTimeout => .readTimeout
  | .connectionError => .connectionError
  | .otherRequest => .otherRequest

/-- `isinstance(e, requests.exceptions.HTTPError)`. -/
def isHTTPError : PyErr → Bool
  | .httpBad _ => true
  | _ => false

/-- `isinstance(e, requests.exceptions.SSLError)`. -/
def isSSLError : PyErr → Bool
  | .sslError => true
  | _ => false

/-- `isinstance(e, requests.exceptions.ConnectTimeout)`. -/
def isConnectTimeout : PyErr → Bool
  | .connectTimeout => true
  | _ => false

/-- `isinstance(e, requests.exceptions.ConnectionError)`: includes
`SSLError` and `ConnectTimeout` subclasses, but not `ReadTimeout`. -/
def isConnectionError : PyErr → Bool
  | .connectionError | .sslError | .connectTimeout => true
  | _ => false

/-- `isinstance(e, requests.exceptions.RequestException)`. -/
def isRequestException : PyErr → Bool
  | .sslError | .connectTimeout | .readTimeout | .connectionError
  | .otherRequest | .httpBad _ => true
  | _ => false

/-- One HTTP response: status code and the result of `r.json()`
(`Option.none` = the body is not valid JSON, a `ValueError`). -/
structure HttpResp where
  status : Nat
  body : Option PyVal

/-- The network oracle: what `Session.get(url, ...)` does for each URL
during one poll. -/
def Net : Type := String → Except NetErr HttpResp

/-- `s.get(url); r.raise_for_status(); r.json()` — the pattern used by
every fetch in the client. -/
def httpGetJson (net : Net) (url : String) : Except PyErr PyVal :=
  match net url with
  | .error e => .error (netErrToPy e)
  | .ok r =>
      if 400 ≤ r.status ∧ r.status < 600 then .error (.httpBad r.status)
      else
        match r.body with
        | some j => .ok j
        | Option.none => .error .jsonDecode

/-- Attribute access `v.get(k)`: only dicts have `.get`; anything else
raises `AttributeError`. -/
def pyDictGet (v : PyVal) (k : String) : Except PyErr PyVal :=
  match v with
  | .obj fs => .ok (objGet fs k)
  | _ => .error .attrError

/-- Subscript `v[k]` with a string key: `KeyError` on a dict without the
key, `TypeError` on non-dicts. -/
def pyGetItem (v : PyVal) (k : String) : Except PyErr PyVal :=
  match v with
  | .obj fs => if objHas fs k then .ok (objGet fs k) else .error .keyErr
  | _ => .error .typeErr

/-- Subscript `v[0]`. -/
def pyIndexZero (v : PyVal) : Except PyErr PyVal :=
  match v with
  | .arr (x :: _) => .ok x
  | .arr [] => .error .indexErr
  | .str s =>
      match s.toList with
      | c :: _ => .ok (.str (String.mk [c]))
      | [] => .error .indexErr
  | .obj _ => .error .keyErr
  | _ => .error .typeErr

/-- `for x in v`: lists iterate elements, strings iterate characters,
dicts iterate keys, anything else raises `TypeError`. -/
def pyIter (v : PyVal) : Except PyErr (List PyVal) :=
  match v with
  | .arr xs => .ok xs
  | .str s => .ok (s.toList.map (fun c => .str (String.mk [c])))
  | .obj fs => .ok (fs.map (fun kv => PyVal.str kv.1))
  | _ => .error .typeErr

/-- `CimcRedfishClient._pick_chassis` (coordinator.py:79-86): GET the
chassis collection, take `Members` (default `[]`), raise `RuntimeError`
when empty, else return `members[0]["@odata.id"]`. -/
def _pick_chassis (net : Net) (base : String) : Except PyErr PyVal :=
  match httpGetJson net (base ++ "/redfish/v1/Chassis") with
  | .error e => .error e
  | .ok j =>
    match pyDictGet j "Members" with
    | .error e => .error e
    | .ok mv =>
      let members := pyOr mv (.arr [])
      if pyTruthy members then
        match pyIndexZero members with
        | .error e => .error e
        | .ok m0 => pyGetItem m0 "@odata.id"
      else .error (.runtime "No Redfish chassis members found.")

/-- `CimcRedfishClient._ensure_chassis` (coordinator.py:88-91): the cached
chassis path is reused when truthy (`if not self._chassis_path`), else
`_pick_chassis` runs and its result is cached. -/
def _ensure_chassis (net : Net) (base : String) (c : Option PyVal) :
    Except PyErr (PyVal × Option PyVal) :=
  let fresh : Except PyErr (PyVal × Option PyVal) :=
    match _pick_chassis net base with
    | .error e => .error e
    | .ok p => .ok (p, some p)
  match c with
  | some p => if pyTruthy p then .ok (p, some p) else fresh
  | Option.none => fresh

/-- `CimcRedfishClient._fetch_if_link` (coordinator.py:93-104): entries
that already carry `Reading`/`ReadingRPM`/`Status` keys pass through;
link-stub dicts with a truthy `@odata.id` are resolved by a follow-up GET;
other dicts pass through and non-dicts collapse to `{}`. -/
def _fetch_if_link (net : Net) (base : String) (item : PyVal) : Except PyErr PyVal :=
  match item with
  | .obj fs =>
      if objHas fs "Reading" || objHas fs "ReadingRPM" || objHas fs "Status" then
        .ok item
      else
        let oid := objGet fs "@odata.id"
        if pyTruthy oid then httpGetJson net (base ++ pyStrOf oid)
        else .ok item
  | _ => .ok (.obj [])

/-!
Telemetry records: the dict literals built by the client, one structure
field per dict key.
-/

/-- A fan record (coordinator.py:268-281). -/
structure Fan where
  name : PyVal
  context : PyVal
  member_id : PyVal
  rpm : PyVal
  units : PyVal
  state : PyVal
  health : PyVal
  lower_noncrit : PyVal
  lower_crit : PyVal
  upper_noncrit : PyVal
  upper_crit : PyVal
  odata_id : PyVal

/-- A temperature record (coordinator.py:139-152). -/
structure TempRec where
  name : PyVal
  context : PyVal
  member_id : PyVal
  celsius : PyVal
  state : PyVal
  health : PyVal
  lower_noncrit : PyVal
  lower_crit : PyVal
  upper_noncrit : PyVal
  upper_crit : PyVal
  sensor_number : PyVal
  odata_id : PyVal

/-- A voltage-rail record (coordinator.py:187-200). -/
structure Rail where
  member_id : PyVal
  name : PyVal
  context : PyVal
  volts : PyVal
  lower_noncrit : PyVal
  lower_crit : PyVal
  upper_noncrit : PyVal
  upper_crit : PyVal
  state : PyVal
  health : PyVal
  sensor_number : PyVal
  odata_id : PyVal

/-- A PSU record (coordinator.py:214-227). -/
structure Psu where
  member_id : PyVal
  name : PyVal
  state : PyVal
  last_power : PyVal
  line_input_volts : PyVal
  serial : PyVal
  model : PyVal
  part_number : PyVal
  spare_part_number : PyVal
  odata_id : PyVal
  voltage : PyVal
  voltage_odata_id : PyVal

/-- The overall-power dict (coordinator.py:169-175). -/
structure PowerRec where
  consumed_watts : PyVal
  min_watts : PyVal
  avg_watts : PyVal
  max_watts : PyVal
  interval_min : PyVal

/-- The device dict (coordinator.py:299-305); `host` and `ident` come from
`self._host`, a Python `str`. -/
structure Device where
  host : String
  manufacturer : PyVal
  model : PyVal
  serial : PyVal
  ident : String

/-- The dict returned by `fetch_fans`. -/
structure FansResult where
  fans : List Fan
  device : Device

/-- The dict returned by `fetch_power`. -/
structure PowerResult where
  power : PowerRec
  psus : List Psu
  voltages : List Rail

/-- The snapshot built by `fetch_all`: `fans`/`device` always present,
the best-effort categories are `Option.none` when their key is absent. -/
structure Snapshot where
  fans : List Fan
  device : Device
  power : Option PowerRec
  psus : Option (List Psu)
  voltages : Option (List Rail)
  temperatures : Option (List TempRec)

/-- The fan-normalization loop body (coordinator.py:255-281).  All `.get`
calls need `f` (and a truthy `Status`) to be a dict; otherwise the loop
raises `AttributeError`. -/
def fanOfJson (f : PyVal) : Except PyErr Fan :=
  match f with
  | .obj fs =>
    match pyOr (objGet fs "Status") (.obj []) with
    | .obj sfs =>
      let rpm_val := pyOr (objGet fs "Reading") (objGet fs "ReadingRPM")
      let rpm := match _num rpm_val with
        | .none => rpm_val
        | w => w
      .ok {
        name := pyOr (objGet fs "Name") (pyOr (objGet fs "FanName") (.str "Fan")),
        context := objGet fs "PhysicalContext",
        member_id := coerceMemberId (objGet fs "MemberID"),
        rpm := rpm,
        units := pyOr (objGet fs "ReadingUnits")
          (match objGet fs "ReadingRPM" with
           | .none => .str ""
           | _ => .str "RPM"),
        state := objGet sfs "State",
        health := objGet sfs "Health",
        lower_noncrit := _num (objGet fs "LowerThresholdNonCritical"),
        lower_crit := _num (objGet fs "LowerThresholdCritical"),
        upper_noncrit := _num (objGet fs "UpperThresholdNonCritical"),
        upper_crit := _num (objGet fs "UpperThresholdCritical"),
        odata_id := objGet fs "@odata.id" }
    | _ => .error .attrError
  | _ => .error .attrError

/-- The temperature-normalization loop body (coordinator.py:131-152). -/
def tempOfJson (t : PyVal) : Except PyErr TempRec :=
  match t with
  | .obj fs =>
    match pyOr (objGet fs "Status") (.obj []) with
    | .obj sfs =>
      let member_id := coerceMemberId (objGet fs "MemberID")
      .ok {
        name := pyOr (objGet fs "Name") (.str ("Temp " ++ pyStrOf member_id)),
        context := objGet fs "PhysicalContext",
        member_id := member_id,
        celsius := _num (objGet fs "ReadingCelsius"),
        state := objGet sfs "State",
        health := objGet sfs "Health",
        lower_noncrit := _num (objGet fs "LowerThresholdNonCritical"),
        lower_crit := _num (objGet fs "LowerThresholdCritical"),
        upper_noncrit := _num (objGet fs "UpperThresholdNonCritical"),
        upper_crit := _num (objGet fs "UpperThresholdCritical"),
        sensor_number := _num (objGet fs "SensorNumber"),
        odata_id := objGet fs "@odata.id" }
    | _ => .error .attrError
  | _ => .error .attrError

/-- The voltage-rail loop body (coordinator.py:180-200). -/
def railOfJson (v : PyVal) : Except PyErr Rail :=
  match v with
  | .obj fs =>
    match pyOr (objGet fs "Status") (.obj []) with
    | .obj sfs =>
      .ok {
        member_id := coerceMemberId (objGet fs "MemberID"),
        name := objGet fs "Name",
        context := objGet fs "PhysicalContext",
        volts := _num (objGet fs "ReadingVolts"),
        lower_noncrit := _num (objGet fs "LowerThresholdNonCritical"),
        lower_crit := _num (objGet fs "LowerThresholdCritical"),
        upper_noncrit := _num (objGet fs "UpperThresholdNonCritical"),
        upper_crit := _num (objGet fs "UpperThresholdCritical"),
        state := pyOr (objGet sfs "State") (objGet sfs "state"),
        health := pyOr (objGet sfs "Health") (objGet sfs "health"),
        sensor_number := _num (objGet fs "SensorNumber"),
        odata_id := objGet fs "@odata.id" }
    | _ => .error .attrError
  | _ => .error .attrError

/-- Filter of the `rails_by_mid` dict comprehension (coordinator.py:204):
`r.get("context") == "PowerSupply" and r.get("member_id") is not None`. -/
def railKeeps (r : Rail) : Bool :=
  (match r.context with
   | .str s => s = "PowerSupply"
   | _ => false)
  && (match r.member_id with
      | .none => false
      | _ => true)

/-- The `rails_by_mid` dict comprehension, as the insertion-ordered list of
its bindings (`str(r["member_id"]) ↦ r`). -/
def railsByMid (rails : List Rail) : List (String × Rail) :=
  rails.filterMap fun r =>
    if railKeeps r then some (pyStrOf r.member_id, r) else Option.none

/-- Lookup in a dict built from an ordered binding list: a later binding
for the same key overwrites an earlier one. -/
def lookupLast (m : List (String × Rail)) (k : String) : Option Rail :=
  match m with
  | [] => Option.none
  | kv :: rest =>
    match lookupLast rest k with
    | some v => some v
    | Option.none => if kv.1 = k then some kv.2 else Option.none

/-- The PSU loop body with rail stitching (coordinator.py:206-227):
`rail = rails_by_mid.get(str(member_id), {})`, and `{}.get(...)` is
`None` for both stitched fields when no rail matches. -/
def psuOfJson (railsMap : List (String × Rail)) (p : PyVal) : Except PyErr Psu :=
  match p with
  | .obj fs =>
    match pyOr (objGet fs "Status") (.obj []) with
    | .obj sfs =>
      let member_id := coerceMemberId (objGet fs "MemberID")
      let rail := lookupLast railsMap (pyStrOf member_id)
      .ok {
        member_id := member_id,
        name := pyOr (objGet fs "Name") (.str ("PSU " ++ pyStrOf member_id)),
        state := pyOr (objGet sfs "State") (objGet sfs "state"),
        last_power := _num (objGet fs "LastPowerOutputWatts"),
        line_input_volts := _num (objGet fs "LineInputVoltage"),
        serial := objGet fs "SerialNumber",
        model := objGet fs "Model",
        part_number := objGet fs "PartNumber",
        spare_part_number := objGet fs "SparePartNumber",
        odata_id := objGet fs "@odata.id",
        voltage := match rail with
          | some r => r.volts
          | Option.none => .none,
        voltage_odata_id := match rail with
          | some r => r.odata_id
          | Option.none => .none }
    | _ => .error .attrError
  | _ => .error .attrError

/-- A Python `for` loop (or list comprehension) whose body can raise: the
first raised exception propagates, else the list of results is built in
order. -/
def mapE {α β : Type} (f : α → Except PyErr β) : List α → Except PyErr (List β)
  | [] => .ok []
  | x :: xs =>
    match f x with
    | .error e => .error e
    | .ok y =>
      match mapE f xs with
      | .error e => .error e
      | .ok ys => .ok (y :: ys)

/-- The Thermal half of `fetch_fans` (coordinator.py:243-281): ensure the
chassis path, GET `{chassis}/Thermal`, resolve link-stub entries of `Fans`,
and normalize each into a `Fan`.  Returns the fans together with the
chassis path in use and the updated path cache. -/
def fansPhase (net : Net) (base : String) (c : Option PyVal) :
    Except PyErr (List Fan × PyVal × Option PyVal) :=
  match _ensure_chassis net base c with
  | .error e => .error e
  | .ok (cp, c') =>
    match httpGetJson net (base ++ pyStrOf cp ++ "/Thermal") with
    | .error e => .error e
    | .ok thermal =>
      match pyDictGet thermal "Fans" with
      | .error e => .error e
      | .ok fv =>
        match pyIter (pyOr fv (.arr [])) with
        | .error e => .error e
        | .ok raws =>
          match mapE (_fetch_if_link net base) raws with
          | .error e => .error e
          | .ok objs =>
            match mapE fanOfJson objs with
            | .error e => .error e
            | .ok fans => .ok (fans, cp, c')

/-- The body of the device-info `try` block (coordinator.py:284-290): GET
the chassis resource and pick `Manufacturer`/`Model`/`SerialNumber` with
the Cisco defaults applied via `or`. -/
def deviceTry (net : Net) (base : String) (cp : PyVal) :
    Except PyErr (PyVal × PyVal × PyVal) :=
  match httpGetJson net (base ++ pyStrOf cp) with
  | .error e => .error e
  | .ok chassis =>
    match chassis with
    | .obj fs =>
        .ok (pyOr (objGet fs "Manufacturer") (.str "Cisco"),
             pyOr (objGet fs "Model") (.str "C-Series"),
             objGet fs "SerialNumber")
    | _ => .error .attrError

/-- The exception classes named by the device-info `except` clause
(coordinator.py:291): `requests.RequestException`, `ValueError` (which the
`r.json()` decode error subclasses), `KeyError`, `TypeError`. -/
def caughtByDeviceExcept (e : PyErr) : Bool :=
  isRequestException e ||
  (match e with
   | .jsonDecode | .keyErr | .typeErr => true
   | _ => false)

/-- `CimcRedfishClient.fetch_fans` (coordinator.py:241-306). -/
def fetch_fans (net : Net) (base host : String) (c : Option PyVal) :
    Except PyErr (FansResult × Option PyVal) :=
  match fansPhase net base c with
  | .error e => .error e
  | .ok (fans, cp, c') =>
    match deviceTry net base cp with
    | .ok (vendor, model, serial) =>
        .ok ({ fans := fans,
               device := { host := host, manufacturer := vendor, model := model,
                           serial := serial, ident := host } }, c')
    | .error e =>
        if caughtByDeviceExcept e then
          .ok ({ fans := fans,
                 device := { host := host, manufacturer := .str "Cisco",
                             model := .str "C-Series", serial := .none,
                             ident := host } }, c')
        else .error e

/-- `CimcRedfishClient.fetch_temperatures` (coordinator.py:118-153). -/
def fetch_temperatures (net : Net) (base : String) (c : Option PyVal) :
    Except PyErr (List TempRec × Option PyVal) :=
  match _ensure_chassis net base c with
  | .error e => .error e
  | .ok (cp, c') =>
    match httpGetJson net (base ++ pyStrOf cp ++ "/Thermal") with
    | .error e => .error e
    | .ok thermal =>
      match pyDictGet thermal "Temperatures" with
      | .error e => .error e
      | .ok tv =>
        match pyIter (pyOr tv (.arr [])) with
        | .error e => .error e
        | .ok raws =>
          match mapE (_fetch_if_link net base) raws with
          | .error e => .error e
          | .ok objs =>
            match mapE tempOfJson objs with
            | .error e => .error e
            | .ok temps => .ok (temps, c')

/-- `CimcRedfishClient.fetch_power` (coordinator.py:157-229). -/
def fetch_power (net : Net) (base : String) (c : Option PyVal) :
    Except PyErr (PowerResult × Option PyVal) :=
  match _ensure_chassis net base c with
  | .error e => .error e
  | .ok (cp, c') =>
    match httpGetJson net (base ++ pyStrOf cp ++ "/Power") with
    | .error e => .error e
    | .ok pwRaw =>
      match pyOr pwRaw (.obj []) with
      | .obj pfs =>
        match pyOr (objGet pfs "PowerControl") (.obj []) with
        | .obj pcfs =>
          let consumed := _num (objGet pcfs "PowerConsumedWatts")
          match pyOr (objGet pcfs "PowerMetric") (.obj []) with
          | .obj pmfs =>
            let power : PowerRec := {
              consumed_watts := _num consumed,
              min_watts := _num (objGet pmfs "MinConsumedWatts"),
              avg_watts := _num (objGet pmfs "AverageConsumedWatts"),
              max_watts := _num (objGet pmfs "MaxConsumedWatts"),
              interval_min := _num (objGet pmfs "IntervalInMin") }
            match pyIter (pyOr (objGet pfs "Voltages") (.arr [])) with
            | .error e => .error e
            | .ok railRaws =>
              match mapE railOfJson railRaws with
              | .error e => .error e
              | .ok rails =>
                match pyIter (pyOr (objGet pfs "PowerSupplies") (.arr [])) with
                | .error e => .error e
                | .ok psuRaws =>
                  match mapE (psuOfJson (railsByMid rails)) psuRaws with
                  | .error e => .error e
                  | .ok psus =>
                      .ok ({ power := power, psus := psus, voltages := rails }, c')
          | _ => .error .attrError
        | _ => .error .attrError
      | _ => .error .attrError

/-- `CimcRedfishClient.fetch_all` (coordinator.py:231-237): the
fans-and-device fetch propagates its exception; `fetch_power` and
`fetch_temperatures` each run under `contextlib.suppress(Exception)`, so a
failure leaves their keys out of the snapshot.  With the network a pure
oracle, a suppressed failure leaves the chassis-path cache as the
(successful) fans fetch left it. -/
def fetch_all (net : Net) (base host : String) (c : Option PyVal) :
    Except PyErr (Snapshot × Option PyVal) :=
  match fetch_fans net base host c with
  | .error e => .error e
  | .ok (fr, c1) =>
    let pwStep : Option PowerResult × Option PyVal :=
      match fetch_power net base c1 with
      | .ok (p, c2) => (some p, c2)
      | .error _ => (Option.none, c1)
    match pwStep with
    | (pw, c2) =>
      let tmStep : Option (List TempRec) × Option PyVal :=
        match fetch_temperatures net base c2 with
        | .ok (t, c3) => (some t, c3)
        | .error _ => (Option.none, c2)
      match tmStep with
      | (tm, c3) =>
        .ok ({ fans := fr.fans,
               device := fr.device,
               power := pw.map (fun p => p.power),
               psus := pw.map (fun p => p.psus),
               voltages := pw.map (fun p => p.voltages),
               temperatures := tm }, c3)

/-!
Entity unique identifiers (entities/fan.py, entities/psu.py,
entities/temperature.py).
-/

/-- `str.replace(pat, rep)`: leftmost non-overlapping occurrences.  The
fuel is the input length, enough because each step consumes at least one
character (patterns are never empty in the modelled code). -/
def replFuel (pat rep : List Char) : Nat → List Char → List Char
  | _, [] => []
  | 0, s => s
  | Nat.succ fuel, c :: cs =>
    match (pat.isPrefixOf (c :: cs) : Bool) with
    | true => rep ++ replFuel pat rep fuel ((c :: cs).drop pat.length)
    | false => c :: replFuel pat rep fuel cs

/-- Python `s.replace(pat, rep)`. -/
def pyReplace (s pat rep : String) : String :=
  (replFuel pat.toList rep.toList s.length s.toList).asString

/-- `CimcFanSensor.__init__` unique id (entities/fan.py:32-38):
`f"{host}:{odata or str(member_id or name)}".replace("/", "_")`. -/
def fanUniqueId (host : String) (fan : Fan) : String :=
  let fanId := pyStrOf (pyOr fan.member_id fan.name)
  let unique := host ++ ":" ++ (if pyTruthy fan.odata_id then pyStrOf fan.odata_id else fanId)
  pyReplace unique "/" "_"

/-- `CimcTemperatureSensor.__init__` unique id (entities/temperature.py:34-38),
same shape as the fan sensor's. -/
def tempUniqueId (host : String) (t : TempRec) : String :=
  let tempId := pyStrOf (pyOr t.member_id t.name)
  let unique := host ++ ":" ++ (if pyTruthy t.odata_id then pyStrOf t.odata_id else tempId)
  pyReplace unique "/" "_"

/-- The `name` local of `_psu_base` (entities/psu.py:14):
`psu.get("name") or f"PSU {psu.get('member_id')}"`. -/
def psuBaseName (p : Psu) : PyVal :=
  pyOr p.name (.str ("PSU " ++ pyStrOf p.member_id))

/-- The `uid_base` local of `_psu_base` (entities/psu.py:15):
`(psu.get("odata_id") or f"psu:{psu.get('member_id') or name}").replace("/", "_")`. -/
def psuUidBase (p : Psu) : String :=
  pyReplace
    (if pyTruthy p.odata_id then pyStrOf p.odata_id
     else "psu:" ++ pyStrOf (pyOr p.member_id (psuBaseName p)))
    "/" "_"

/-- `CimcPsuVoltageSensor` unique id (entities/psu.py:52): `f"{host}:{uid}:voltage"`. -/
def psuVoltageUniqueId (host : String) (p : Psu) : String :=
  host ++ ":" ++ psuUidBase p ++ ":voltage"

/-- `CimcPsuPowerSensor` unique id (entities/psu.py:110): `f"{host}:{uid}:power"`. -/
def psuPowerUniqueId (host : String) (p : Psu) : String :=
  host ++ ":" ++ psuUidBase p ++ ":power"

/-!
Setup-time validation (config_flow.py:81-131).
-/

/-- `ConfigFlow._async_validate` given the outcome of the single
`client.fetch_fans` call: the success check
(`isinstance(res, dict) and "fans" in res`) always passes because
`fetch_fans` returns the dict literal containing `"fans"`; failures
dispatch through the `except` clauses in source order, each matching by
`isinstance` against the requests hierarchy. -/
def validateOutcome (r : Except PyErr FansResult) : Bool × Option String :=
  match r with
  | .ok _ => (true, Option.none)
  | .error e =>
    if isHTTPError e then
      match e with
      | .httpBad code =>
          if code = 401 then (false, some "invalid_auth")
          else if code = 403 then (false, some "forbidden")
          else if code = 404 ∨ code = 405 then (false, some "not_supported")
          else (false, some "cannot_connect")
      | _ => (false, some "cannot_connect")
    else if isSSLError e then (false, some "ssl_error")
    else if isConnectTimeout e then (false, some "timeout")
    else if isConnectionError e then (false, some "cannot_connect")
    else (false, some "unknown")

/-- `_async_validate` end to end: one `fetch_fans` call on a freshly
constructed client (empty chassis-path cache), no retry. -/
def _async_validate (net : Net) (base host : String) : Bool × Option String :=
  validateOutcome ((fetch_fans net base host Option.none).map Prod.fst)

/-!
`normalize_name` (helpers.py:15-64).
-/

/-- Case-insensitive char equality, as `re.IGNORECASE` compares. -/
def chEqCI (a b : Char) : Bool := a.toLower = b.toLower

/-- Case-insensitive literal prefix match; returns the rest on success. -/
def dropPreCI : List Char → List Char → Option (List Char)
  | [], s => some s
  | _ :: _, [] => Option.none
  | p :: ps, c :: cs => if chEqCI c p then dropPreCI ps cs else Option.none

/-- Leading maximal digit run. -/
def takeDigits (cs : List Char) : List Char × List Char :=
  (cs.takeWhile Char.isDigit, cs.dropWhile Char.isDigit)

/-- `re.sub(tok + r"(\d+)", rep + r"\1", s, flags=re.IGNORECASE)`:
leftmost non-overlapping matches of the literal token (case-insensitive)
followed by one or more digits, each replaced by `rep` and the digits. -/
def reSubNumFuel (tok rep : List Char) : Nat → List Char → List Char
  | _, [] => []
  | 0, s => s
  | Nat.succ fuel, c :: cs =>
    match dropPreCI tok (c :: cs) with
    | some rest =>
      match takeDigits rest with
      | ([], _) => c :: reSubNumFuel tok rep fuel cs
      | (ds, rest') => rep ++ ds ++ reSubNumFuel tok rep fuel rest'
    | Option.none => c :: reSubNumFuel tok rep fuel cs

/-- String-level wrapper for `reSubNumFuel`. -/
def reSubNum (s tok rep : String) : String :=
  (reSubNumFuel tok.toList rep.toList s.length s.toList).asString

/-- `normalize_name` (helpers.py:15-64): the exact replacement pipeline.
`None` input is the falsy branch (`if not raw: return ""`), as is `""`. -/
def normalize_name (raw : Option String) : String :=
  match raw with
  | Option.none => ""
  | some r =>
    if r = "" then ""
    else
      let name := reSubNum r "FAN" "Fan "
      let name := reSubNum name "RISER" "Riser "
      let name := reSubNum name "PSU" "PSU "
      let name := pyReplace name "_" " "
      let name := pyReplace name "OUTLETTMP" "Outlet Temperature"
      let name := pyReplace name "OUTLET" "Outlet"
      let name := pyReplace name "TACH" " Tach "
      let name := pyReplace name "FP" "Front Panel"
      let name := pyReplace name "TEMP" "Temperature"
      let name := pyReplace name "TMP" "Temperature"
      let name := pyReplace name "INLET" "Inlet"
      let name := pyReplace name "OUTLET" "Outlet"
      let name := pyReplace name "PCH" "Chipset"
      let name := pyReplace name "SENSOR" ""
      let name := pyReplace name "SENS" ""
      pyStrip name

example : normalize_name (some "FAN1_TACH1") = "Fan 1  Tach 1" := by decide
example : normalize_name (some "PSU1_TEMP") = "PSU 1 Temperature" := by decide
example : normalize_name (some "RISER2_OUTLETTMP") = "Riser 2 Outlet Temperature" := by decide
example : normalize_name Option.none = "" := by decide
example : normalize_name (some "") = "" := by decide

/-!
Concrete test world for witnesses and counterexamples.
-/

/-- A chassis collection with one member. -/
def chassisColl : PyVal :=
  .obj [("Members", .arr [.obj [("@odata.id", .str "/redfish/v1/Chassis/1")]])]

/-- A chassis collection with zero members. -/
def chassisCollEmpty : PyVal := .obj [("Members", .arr [])]

/-- A Thermal resource with no fans (and no `Temperatures` key). -/
def thermalEmpty : PyVal := .obj [("Fans", .arr [])]

/-- A Thermal resource whose `Temperatures` value is not iterable, so only
`fetch_temperatures` trips over it. -/
def thermalBadTemps : PyVal := .obj [("Fans", .arr []), ("Temperatures", .int 5)]

/-- Successful response wrapper. -/
def okJson (j : PyVal) : Except NetErr HttpResp := .ok { status := 200, body := some j }

/-- Network: chassis discovery works, the Thermal fetch works, every other
request (Power, chassis resource) fails with a connection error. -/
def netPowerDown : Net := fun url =>
  if url = "https://h/redfish/v1/Chassis" then okJson chassisColl
  else if url = "https://h/redfish/v1/Chassis/1/Thermal" then okJson thermalEmpty
  else .error .connectionError

/-- Network: discovery, Thermal and Power work, but the Thermal resource
carries a non-iterable `Temperatures`, so only `fetch_temperatures`
raises.  The chassis-resource GET fails (device info falls back). -/
def netTempsDown : Net := fun url =>
  if url = "https://h/redfish/v1/Chassis" then okJson chassisColl
  else if url = "https://h/redfish/v1/Chassis/1/Thermal" then okJson thermalBadTemps
  else if url = "https://h/redfish/v1/Chassis/1/Power" then okJson (.obj [])
  else .error .connectionError

/-- Network: the chassis collection has zero members. -/
def netNoMembers : Net := fun url =>
  if url = "https://h/redfish/v1/Chassis" then okJson chassisCollEmpty
  else .error .connectionError

/-- Network: every request is rejected with HTTP 401. -/
def netAuthReject : Net := fun _ => .ok { status := 401, body := Option.none }

/-- Network: every request stalls past the read timeout. -/
def netReadStall : Net := fun _ => .error .readTimeout

/-- The fan/device dict `fetch_fans` produces over `netPowerDown` (the
device-info GET fails there, so the Cisco defaults apply). -/
def frEmpty : FansResult :=
  { fans := [],
    device := { host := "h", manufacturer := .str "Cisco", model := .str "C-Series",
                serial := PyVal.none, ident := "h" } }

/-- The all-`None` power block parsed out of an empty Power resource. -/
def powerNone : PowerRec :=
  { consumed_watts := PyVal.none, min_watts := PyVal.none, avg_watts := PyVal.none,
    max_watts := PyVal.none, interval_min := PyVal.none }

example : fetch_fans netPowerDown "https://h" "h" Option.none =
    .ok (frEmpty, some (.str "/redfish/v1/Chassis/1")) := rfl
example : fetch_power netPowerDown "https://h" (some (.str "/redfish/v1/Chassis/1")) =
    .error .connectionError := rfl
example : fetch_temperatures netTempsDown "https://h" (some (.str "/redfish/v1/Chassis/1")) =
    .error .typeErr := rfl
example : fetch_power netTempsDown "https://h" (some (.str "/redfish/v1/Chassis/1")) =
    .ok ({ power := powerNone, psus := [], voltages := [] }, some (.str "/redfish/v1/Chassis/1")) := rfl

/-!
Claim theorems.
-/

/-- C2: `_num` treats `None`, `""` and `"N/A"` as absent, parses `"123"`
as the integer 123 and `"12.5"` as the float 12.5, yields absent on a
non-numeric string such as `"abc"`, and on every non-sentinel value tries
the integer parse first and the float parse second, with absent (never
zero, never an exception) on double failure. -/
theorem num_coercion_policy :
    _num PyVal.none = PyVal.none ∧
    _num (PyVal.str "") = PyVal.none ∧
    _num (PyVal.str "N/A") = PyVal.none ∧
    _num (PyVal.str "123") = PyVal.int 123 ∧
    _num (PyVal.str "12.5") = PyVal.float (mkRat 25 2) ∧
    _num (PyVal.str "abc") = PyVal.none ∧
    (∀ v : PyVal, isAbsentSentinel v = false →
      (∀ n, pyIntFn v = some n → _num v = PyVal.int n) ∧
      (pyIntFn v = Option.none →
        ∀ q, pyFloatFn v = some q → _num v = PyVal.float q) ∧
      (pyIntFn v = Option.none → pyFloatFn v = Option.none → _num v = PyVal.none)) := by
  refine ⟨rfl, rfl, rfl, rfl, rfl, rfl, ?_⟩
  intro v hv
  refine ⟨?_, ?_, ?_⟩
  · intro n hn
    simp [_num, hv, hn]
  · intro hi q hq
    simp [_num, hv, hi, hq]
  · intro hi hf
    simp [_num, hv, hi, hf]

/-- Witness for `num_coercion_policy` at the concrete input `"123"`. -/
theorem num_coercion_policy_witness : _num (PyVal.str "123") = PyVal.int 123 :=
  (num_coercion_policy.2.2.2.2.2.2 (PyVal.str "123") rfl).1 123 rfl

/-- C10: `_num` on an actual float succeeds at the `int(v)` step, so the
result is the truncation toward zero (`_num(12.5) = 12`, `_num(-12.5) =
-12`), while the numeric string `"12.5"` is preserved as the float 12.5. -/
theorem num_float_truncation :
    (∀ q : Rat, _num (PyVal.float q) = PyVal.int (ratTrunc q)) ∧
    _num (PyVal.float (mkRat 25 2)) = PyVal.int 12 ∧
    _num (PyVal.float (mkRat (-25) 2)) = PyVal.int (-12) ∧
    _num (PyVal.str "12.5") = PyVal.float (mkRat 25 2) :=
  ⟨fun _ => rfl, rfl, rfl, rfl⟩

/-- Witness for `num_float_truncation` at the concrete float 12.5. -/
theorem num_float_truncation_witness :
    _num (PyVal.float (mkRat 25 2)) = PyVal.int (ratTrunc (mkRat 25 2)) :=
  num_float_truncation.1 (mkRat 25 2)

/-- C8 counterexample: `normalize_name` maps `"FAN1_TACH1"` to
`"Fan 1  Tach 1"` (the `TACH → " Tach "` substitution is applied after the
underscore already became a space, leaving two spaces), not to
`"Fan 1 Tach 1"` as claimed. -/
theorem normalize_name_tach_cex :
    normalize_name (some "FAN1_TACH1") ≠ "Fan 1 Tach 1" := by decide

/-- C8 amended: the display-name normalization examples as the code
computes them; `"FAN1_TACH1"` yields `"Fan 1  Tach 1"` with a double
space, the other examples are as claimed. -/
theorem normalize_name_examples :
    normalize_name (some "FAN1_TACH1") = "Fan 1  Tach 1" ∧
    normalize_name (some "PSU1_TEMP") = "PSU 1 Temperature" ∧
    normalize_name (some "RISER2_OUTLETTMP") = "Riser 2 Outlet Temperature" ∧
    normalize_name Option.none = "" ∧
    normalize_name (some "") = "" := by
  refine ⟨by decide, by decide, by decide, rfl, rfl⟩

/-- C4 counterexample: with a chassis collection of zero members the
discovery raises `RuntimeError("No Redfish chassis members found.")`,
which is not of `ConnectionError` kind. -/
theorem chassis_zero_members_cex :
    _pick_chassis netNoMembers "https://h" =
      .error (.runtime "No Redfish chassis members found.") ∧
    isConnectionError (.runtime "No Redfish chassis members found.") = false ∧
    isRequestException (.runtime "No Redfish chassis members found.") = false :=
  ⟨rfl, rfl, rfl⟩

/-- C4 amended: whenever the chassis-collection GET succeeds but its
`Members` entry defaults or evaluates to an empty (falsy) list, chassis
discovery raises a `RuntimeError` (not a `ConnectionError`). -/
theorem chassis_zero_members_raises_runtime :
    ∀ (net : Net) (base : String) (j mv : PyVal),
      httpGetJson net (base ++ "/redfish/v1/Chassis") = .ok j →
      pyDictGet j "Members" = .ok mv →
      pyTruthy (pyOr mv (.arr [])) = false →
      _pick_chassis net base = .error (.runtime "No Redfish chassis members found.") := by
  intro net base j mv h1 h2 h3
  simp [_pick_chassis, h1, h2, h3]

/-- Witness for `chassis_zero_members_raises_runtime` on the concrete
zero-member network. -/
theorem chassis_zero_members_raises_runtime_witness :
    _pick_chassis netNoMembers "https://h" =
      .error (.runtime "No Redfish chassis members found.") :=
  chassis_zero_members_raises_runtime netNoMembers "https://h"
    chassisCollEmpty (.arr []) rfl rfl rfl

/-- C5 counterexample: a read timeout of the probe request (a
`requests.exceptions.ReadTimeout`, which is a `Timeout` but neither a
`ConnectTimeout` nor a `ConnectionError`) falls through every dedicated
`except` clause and is classified `"unknown"`, not `"timeout"`. -/
theorem validate_read_timeout_cex :
    _async_validate netReadStall "https://h" "h" = (false, some "unknown") ∧
    some "unknown" ≠ some "timeout" := ⟨rfl, by decide⟩

/-- C5 amended: the single-probe validator classifies an HTTP 401 as
invalid-auth, 403 as forbidden, 404/405 as not-supported, any other HTTP
error as cannot-connect, a TLS/SSL error as the TLS reason, a connect
timeout as the timeout reason, a read timeout as unknown, a connection
error as the generic connection reason, a non-request exception (such as
the zero-member `RuntimeError`) as unknown, and a successful fan fetch as
success. -/
theorem validate_classification :
    ∀ (net : Net) (base host : String),
      (∀ fr c', fetch_fans net base host Option.none = .ok (fr, c') →
        _async_validate net base host = (true, Option.none)) ∧
      (fetch_fans net base host Option.none = .error (.httpBad 401) →
        _async_validate net base host = (false, some "invalid_auth")) ∧
      (fetch_fans net base host Option.none = .error (.httpBad 403) →
        _async_validate net base host = (false, some "forbidden")) ∧
      (∀ code, (code = 404 ∨ code = 405) →
        fetch_fans net base host Option.none = .error (.httpBad code) →
        _async_validate net base host = (false, some "not_supported")) ∧
      (∀ code, code ≠ 401 → code ≠ 403 → code ≠ 404 → code ≠ 405 →
        fetch_fans net base host Option.none = .error (.httpBad code) →
        _async_validate net base host = (false, some "cannot_connect")) ∧
      (fetch_fans net base host Option.none = .error .sslError →
        _async_validate net base host = (false, some "ssl_error")) ∧
      (fetch_fans net base host Option.none = .error .connectTimeout →
        _async_validate net base host = (false, some "timeout")) ∧
      (fetch_fans net base host Option.none = .error .readTimeout →
        _async_validate net base host = (false, some "unknown")) ∧
      (fetch_fans net base host Option.none = .error .connectionError →
        _async_validate net base host = (false, some "cannot_connect")) ∧
      (fetch_fans net base host Option.none = .error .otherRequest →
        _async_validate net base host = (false, some "unknown")) ∧
      (∀ msg, fetch_fans net base host Option.none = .error (.runtime msg) →
        _async_validate net base host = (false, some "unknown")) := by
  intro net base host
  refine ⟨?_, ?_, ?_, ?_, ?_, ?_, ?_, ?_, ?_, ?_, ?_⟩
  · intro fr c' h
    unfold _async_validate
    rw [h]
    rfl
  · intro h
    unfold _async_validate
    rw [h]
    rfl
  · intro h
    unfold _async_validate
    rw [h]
    rfl
  · intro code hc h
    rcases hc with hc | hc <;> subst hc <;> unfold _async_validate <;> rw [h] <;> rfl
  · intro code h1 h3 h4 h5 h
    unfold _async_validate
    rw [h]
    simp [validateOutcome, isHTTPError, Except.map, h1, h3, h4, h5]
  · intro h
    unfold _async_validate
    rw [h]
    rfl
  · intro h
    unfold _async_validate
    rw [h]
    rfl
  · intro h
    unfold _async_validate
    rw [h]
    rfl
  · intro h
    unfold _async_validate
    rw [h]
    rfl
  · intro h
    unfold _async_validate
    rw [h]
    rfl
  · intro msg h
    unfold _async_validate
    rw [h]
    rfl

/-- Witness for `validate_classification`: the all-401 network is
classified invalid-auth. -/
theorem validate_classification_witness :
    _async_validate netAuthReject "https://h" "h" = (false, some "invalid_auth") :=
  (validate_classification netAuthReject "https://h" "h").2.1 rfl

/-- A concrete PSU record as `fetch_power` would emit it, with a resource
identifier present. -/
def cexPsu : Psu :=
  { member_id := .int 1, name := .str "PSU1", state := .str "Enabled",
    last_power := .int 60, line_input_volts := .int 228, serial := .str "S1",
    model := .str "M1", part_number := PyVal.none, spare_part_number := PyVal.none,
    odata_id := .str "/redfish/v1/Chassis/1/Power#/PowerSupplies/0",
    voltage := .int 12, voltage_odata_id := PyVal.none }

/-- C7 counterexample: the PSU voltage sensor's unique identifier is not
`host + ":" + resource-identifier` with separators replaced — the code
appends a `":voltage"` discriminator (and the power sensor `":power"`). -/
theorem unique_id_psu_cex :
    psuVoltageUniqueId "h" cexPsu ≠
      pyReplace ("h" ++ ":" ++ pyStrOf cexPsu.odata_id) "/" "_" ∧
    psuVoltageUniqueId "h" cexPsu =
      pyReplace ("h" ++ ":" ++ pyStrOf cexPsu.odata_id) "/" "_" ++ ":voltage" := by
  refine ⟨by decide, by decide⟩

/-- C7 amended: fan and temperature sensors follow the claimed scheme
(host + ":" + resource identifier when truthy, else the member-id — which
itself falls back to the record name when falsy — with "/" replaced by
"_"); PSU sensors use the same base but append a ":voltage"/":power"
discriminator and prefix the no-identifier fallback with "psu:"; and every
unique identifier is a function of host, resource identifier, member id
and name only, hence stable across polls while those are unchanged. -/
theorem unique_id_scheme :
    (∀ (host : String) (fan : Fan), pyTruthy fan.odata_id = true →
      fanUniqueId host fan = pyReplace (host ++ ":" ++ pyStrOf fan.odata_id) "/" "_") ∧
    (∀ (host : String) (fan : Fan), pyTruthy fan.odata_id = false →
      fanUniqueId host fan =
        pyReplace (host ++ ":" ++ pyStrOf (pyOr fan.member_id fan.name)) "/" "_") ∧
    (∀ (host : String) (t : TempRec), pyTruthy t.odata_id = true →
      tempUniqueId host t = pyReplace (host ++ ":" ++ pyStrOf t.odata_id) "/" "_") ∧
    (∀ (host : String) (p : Psu), pyTruthy p.odata_id = true →
      psuVoltageUniqueId host p =
        host ++ ":" ++ pyReplace (pyStrOf p.odata_id) "/" "_" ++ ":voltage" ∧
      psuPowerUniqueId host p =
        host ++ ":" ++ pyReplace (pyStrOf p.odata_id) "/" "_" ++ ":power") ∧
    (∀ (host : String) (f1 f2 : Fan),
      f1.odata_id = f2.odata_id → f1.member_id = f2.member_id → f1.name = f2.name →
      fanUniqueId host f1 = fanUniqueId host f2) ∧
    (∀ (host : String) (t1 t2 : TempRec),
      t1.odata_id = t2.odata_id → t1.member_id = t2.member_id → t1.name = t2.name →
      tempUniqueId host t1 = tempUniqueId host t2) ∧
    (∀ (host : String) (p1 p2 : Psu),
      p1.odata_id = p2.odata_id → p1.member_id = p2.member_id → p1.name = p2.name →
      psuVoltageUniqueId host p1 = psuVoltageUniqueId host p2 ∧
      psuPowerUniqueId host p1 = psuPowerUniqueId host p2) := by
  refine ⟨?_, ?_, ?_, ?_, ?_, ?_, ?_⟩
  · intro host fan h
    simp [fanUniqueId, h]
  · intro host fan h
    simp [fanUniqueId, h]
  · intro host t h
    simp [tempUniqueId, h]
  · intro host p h
    constructor <;> simp [psuVoltageUniqueId, psuPowerUniqueId, psuUidBase, h]
  · intro host f1 f2 h1 h2 h3
    simp [fanUniqueId, h1, h2, h3]
  · intro host t1 t2 h1 h2 h3
    simp [tempUniqueId, h1, h2, h3]
  · intro host p1 p2 h1 h2 h3
    constructor <;>
      simp [psuVoltageUniqueId, psuPowerUniqueId, psuUidBase, psuBaseName, h1, h2, h3]

/-- Witness for `unique_id_scheme` at the concrete PSU record. -/
theorem unique_id_scheme_witness :
    psuVoltageUniqueId "h" cexPsu =
      "h" ++ ":" ++ pyReplace (pyStrOf cexPsu.odata_id) "/" "_" ++ ":voltage" ∧
    psuPowerUniqueId "h" cexPsu =
      "h" ++ ":" ++ pyReplace (pyStrOf cexPsu.odata_id) "/" "_" ++ ":power" :=
  unique_id_scheme.2.2.2.1 "h" cexPsu rfl

/-- Every exception `httpGetJson` can produce is one of the classes named
by the device-info `except` clause: request exceptions (including the
`raise_for_status` HTTPError) or the JSON decode `ValueError`. -/
theorem httpGetJson_err_caught (net : Net) (url : String) (e : PyErr)
    (h : httpGetJson net url = .error e) : caughtByDeviceExcept e = true := by
  unfold httpGetJson at h
  cases hn : net url with
  | error ne =>
    rw [hn] at h
    injection h with h
    subst h
    cases ne <;> rfl
  | ok r =>
    rw [hn] at h
    by_cases hs : 400 ≤ r.status ∧ r.status < 600
    · simp only [hs, if_true] at h
      injection h with h
      subst h
      rfl
    · simp only [hs, if_false] at h
      cases hb : r.body with
      | some j => rw [hb] at h; cases h
      | none =>
        rw [hb] at h
        injection h with h
        subst h
        rfl

/-- C9: when the Thermal phase of `fetch_fans` succeeds but the follow-up
GET of the chassis resource itself fails (request error, HTTP error
status, or undecodable body), `fetch_fans` still returns normally with the
already-built fans list and the defaulted device record: manufacturer
"Cisco", model "C-Series", serial absent. -/
theorem device_identity_fallback :
    ∀ (net : Net) (base host : String) (c : Option PyVal)
      (fans : List Fan) (cp : PyVal) (c' : Option PyVal) (e : PyErr),
      fansPhase net base c = .ok (fans, cp, c') →
      httpGetJson net (base ++ pyStrOf cp) = .error e →
      fetch_fans net base host c =
        .ok ({ fans := fans,
               device := { host := host, manufacturer := .str "Cisco",
                           model := .str "C-Series", serial := PyVal.none,
                           ident := host } }, c') := by
  intro net base host c fans cp c' e hPhase hDev
  unfold fetch_fans
  rw [hPhase]
  dsimp only
  have hTry : deviceTry net base cp = .error e := by
    unfold deviceTry
    rw [hDev]
  rw [hTry]
  simp [httpGetJson_err_caught net (base ++ pyStrOf cp) e hDev]

/-- Witness for `device_identity_fallback`: over `netPowerDown` the
chassis-resource GET fails with a connection error while the Thermal fetch
succeeded, and `fetch_fans` returns the defaulted device record. -/
theorem device_identity_fallback_witness :
    fetch_fans netPowerDown "https://h" "h" Option.none =
      .ok (frEmpty, some (.str "/redfish/v1/Chassis/1")) :=
  device_identity_fallback netPowerDown "https://h" "h" Option.none
    [] (.str "/redfish/v1/Chassis/1") (some (.str "/redfish/v1/Chassis/1"))
    .connectionError rfl rfl

/-- C1: `fetch_all` raises exactly when the fans-and-device fetch raises
(with the same exception); when `fetch_fans` succeeds and `fetch_power`
raises, the snapshot still carries the fans list and device record while
the `power`/`psus`/`voltages` keys are all absent and no exception
escapes; when `fetch_power` succeeds and `fetch_temperatures` raises, only
the `temperatures` key is absent. -/
theorem fetch_all_error_policy :
    ∀ (net : Net) (base host : String) (c : Option PyVal),
      (∀ e, fetch_all net base host c = .error e ↔
            fetch_fans net base host c = .error e) ∧
      (∀ fr c1, fetch_fans net base host c = .ok (fr, c1) →
        (∀ e, fetch_power net base c1 = .error e →
          ∃ tm c', fetch_all net base host c =
            .ok ({ fans := fr.fans, device := fr.device, power := Option.none,
                   psus := Option.none, voltages := Option.none,
                   temperatures := tm }, c')) ∧
        (∀ pr c2 e, fetch_power net base c1 = .ok (pr, c2) →
          fetch_temperatures net base c2 = .error e →
          fetch_all net base host c =
            .ok ({ fans := fr.fans, device := fr.device, power := some pr.power,
                   psus := some pr.psus, voltages := some pr.voltages,
                   temperatures := Option.none }, c2))) := by
  intro net base host c
  constructor
  · intro e
    unfold fetch_all
    cases hf : fetch_fans net base host c with
    | error e' => simp
    | ok pr =>
      obtain ⟨fr, c1⟩ := pr
      dsimp only
      cases hp : fetch_power net base c1 <;>
        cases ht : fetch_temperatures net base c1 <;>
          simp_all
  · intro fr c1 hff
    constructor
    · intro e hp
      unfold fetch_all
      rw [hff]
      dsimp only
      rw [hp]
      dsimp only
      cases ht : fetch_temperatures net base c1 with
      | error e' =>
        exact ⟨Option.none, c1, rfl⟩
      | ok tp =>
        obtain ⟨t, c3⟩ := tp
        exact ⟨some t, c3, rfl⟩
    · intro pr c2 e hp ht
      unfold fetch_all
      rw [hff]
      dsimp only
      rw [hp]
      dsimp only
      rw [ht]
      rfl

/-- Witness for `fetch_all_error_policy`: over `netPowerDown` the power
fetch fails and the snapshot keeps fans/device with the power keys absent;
over `netTempsDown` the temperature fetch fails and only `temperatures`
is absent. -/
theorem fetch_all_error_policy_witness :
    (∃ tm c', fetch_all netPowerDown "https://h" "h" Option.none =
      .ok ({ fans := frEmpty.fans, device := frEmpty.device, power := Option.none,
             psus := Option.none, voltages := Option.none,
             temperatures := tm }, c')) ∧
    fetch_all netTempsDown "https://h" "h" Option.none =
      .ok ({ fans := frEmpty.fans, device := frEmpty.device,
             power := some powerNone, psus := some [], voltages := some [],
             temperatures := Option.none }, some (.str "/redfish/v1/Chassis/1")) := by
  constructor
  · exact ((fetch_all_error_policy netPowerDown "https://h" "h" Option.none).2
      frEmpty (some (.str "/redfish/v1/Chassis/1")) rfl).1 .connectionError rfl
  · exact ((fetch_all_error_policy netTempsDown "https://h" "h" Option.none).2
      frEmpty (some (.str "/redfish/v1/Chassis/1")) rfl).2
      { power := powerNone, psus := [], voltages := [] }
      (some (.str "/redfish/v1/Chassis/1")) .typeErr rfl rfl

/-- The reading selection as the claim words it: the `Reading` field when
present, else `ReadingRPM` (a key-presence "else", written to compare the
claim against the code's truthiness-based `or`). -/
def claimReadingSel (fs : List (String × PyVal)) : PyVal :=
  if objHas fs "Reading" then objGet fs "Reading" else objGet fs "ReadingRPM"

/-- The fan reading the claim predicts: the selected raw value coerced,
kept raw when the coercion yields absent. -/
def claimRpm (fs : List (String × PyVal)) : PyVal :=
  match _num (claimReadingSel fs) with
  | .none => claimReadingSel fs
  | w => w

/-- Fields of a fan whose `Reading` is present but zero. -/
def fanZeroFields : List (String × PyVal) :=
  [("Name", .str "FAN1"), ("MemberID", .str "1"), ("Reading", .int 0),
   ("ReadingRPM", .int 3000),
   ("Status", .obj [("State", .str "Enabled"), ("Health", .str "OK")])]

/-- A Thermal resource containing only that fan. -/
def thermalZeroReading : PyVal := .obj [("Fans", .arr [.obj fanZeroFields])]

/-- Network serving the zero-`Reading` fan (chassis-resource GET fails, so
the device record defaults). -/
def netReadingZero : Net := fun url =>
  if url = "https://h/redfish/v1/Chassis" then okJson chassisColl
  else if url = "https://h/redfish/v1/Chassis/1/Thermal" then okJson thermalZeroReading
  else .error .connectionError

/-- C6 counterexample: for a fan with `Reading = 0` and `ReadingRPM =
3000` the code stores 3000 (Python `or` skips the falsy zero reading),
while a reading "taken from the `Reading` field" would be 0. -/
theorem fan_reading_falsy_cex :
    (match fetch_fans netReadingZero "https://h" "h" Option.none with
     | .ok (fr, _) => fr.fans.map (fun f => f.rpm)
     | .error _ => []) = [PyVal.int 3000] ∧
    claimRpm fanZeroFields = PyVal.int 0 ∧
    PyVal.int 3000 ≠ PyVal.int 0 := by
  refine ⟨rfl, rfl, by simp⟩

/-- Inversion for `mapE`: every element of a successful result comes from
some input element. -/
theorem mapE_ok_mem {α β : Type} (f : α → Except PyErr β) :
    ∀ (xs : List α) (ys : List β), mapE f xs = .ok ys →
      ∀ y ∈ ys, ∃ x ∈ xs, f x = .ok y := by
  intro xs
  induction xs with
  | nil =>
    intro ys h y hy
    unfold mapE at h
    injection h with h
    subst h
    cases hy
  | cons x rest ih =>
    intro ys h y hy
    unfold mapE at h
    cases hfx : f x with
    | error e => rw [hfx] at h; cases h
    | ok y0 =>
      rw [hfx] at h
      cases hrest : mapE f rest with
      | error e => rw [hrest] at h; cases h
      | ok ys0 =>
        rw [hrest] at h
        injection h with h
        subst h
        rcases List.mem_cons.mp hy with rfl | hy'
        · exact ⟨x, List.mem_cons_self x rest, hfx⟩
        · obtain ⟨x', hx', hfx'⟩ := ih ys0 hrest y hy'
          exact ⟨x', List.mem_cons_of_mem x hx', hfx'⟩

/-- Inversion for `fansPhase`: a successful fans list is the image of the
resolved entries under `fanOfJson`. -/
theorem fansPhase_ok_inv (net : Net) (base : String) (c : Option PyVal)
    (fans : List Fan) (cp : PyVal) (c' : Option PyVal)
    (h : fansPhase net base c = .ok (fans, cp, c')) :
    ∃ objs, mapE fanOfJson objs = .ok fans := by
  unfold fansPhase at h
  cases h1 : _ensure_chassis net base c with
  | error e => rw [h1] at h; cases h
  | ok pcc =>
    obtain ⟨cp0, c0⟩ := pcc
    rw [h1] at h
    dsimp only at h
    cases h2 : httpGetJson net (base ++ pyStrOf cp0 ++ "/Thermal") with
    | error e => rw [h2] at h; cases h
    | ok thermal =>
      rw [h2] at h
      dsimp only at h
      cases h3 : pyDictGet thermal "Fans" with
      | error e => rw [h3] at h; cases h
      | ok fv =>
        rw [h3] at h
        dsimp only at h
        cases h4 : pyIter (pyOr fv (.arr [])) with
        | error e => rw [h4] at h; cases h
        | ok raws =>
          rw [h4] at h
          dsimp only at h
          cases h5 : mapE (_fetch_if_link net base) raws with
          | error e => rw [h5] at h; cases h
          | ok objs =>
            rw [h5] at h
            dsimp only at h
            cases h6 : mapE fanOfJson objs with
            | error e => rw [h6] at h; cases h
            | ok fans0 =>
              rw [h6] at h
              injection h with h
              simp only [Prod.mk.injEq] at h
              obtain ⟨hf, -, -⟩ := h
              exact ⟨objs, by rw [h6, hf]⟩

/-- Inversion for `fetch_fans`: the fans of a successful result are a
successful `fansPhase` output. -/
theorem fetch_fans_ok_inv (net : Net) (base host : String) (c : Option PyVal)
    (res : FansResult) (c' : Option PyVal)
    (h : fetch_fans net base host c = .ok (res, c')) :
    ∃ cp c0, fansPhase net base c = .ok (res.fans, cp, c0) := by
  unfold fetch_fans at h
  cases h1 : fansPhase net base c with
  | error e => rw [h1] at h; cases h
  | ok fcc =>
    obtain ⟨fans, cp, c0⟩ := fcc
    rw [h1] at h
    dsimp only at h
    cases h2 : deviceTry net base cp with
    | ok triple =>
      obtain ⟨v, m, sn⟩ := triple
      rw [h2] at h
      dsimp only at h
      injection h with h
      simp only [Prod.mk.injEq] at h
      obtain ⟨hr, -⟩ := h
      subst hr
      exact ⟨cp, c0, rfl⟩
    | error e =>
      rw [h2] at h
      dsimp only at h
      by_cases hc : caughtByDeviceExcept e = true
      · rw [if_pos hc] at h
        injection h with h
        simp only [Prod.mk.injEq] at h
        obtain ⟨hr, -⟩ := h
        subst hr
        exact ⟨cp, c0, rfl⟩
      · rw [if_neg hc] at h
        cases h

/-- C6 amended: every fan in a successful `fetch_fans` result is the
normalization of some resolved entry, and its `rpm` is the value of
`Reading` when truthy, else `ReadingRPM` (so a present-but-zero or empty
`Reading` falls through), coerced by `_num` with the raw value kept when
the coercion yields absent. -/
theorem fan_reading_rule :
    ∀ (net : Net) (base host : String) (c : Option PyVal)
      (res : FansResult) (c' : Option PyVal),
      fetch_fans net base host c = .ok (res, c') →
      ∀ fan ∈ res.fans, ∃ fs : List (String × PyVal),
        fanOfJson (.obj fs) = .ok fan ∧
        fan.rpm =
          (match _num (pyOr (objGet fs "Reading") (objGet fs "ReadingRPM")) with
           | .none => pyOr (objGet fs "Reading") (objGet fs "ReadingRPM")
           | w => w) := by
  intro net base host c res c' h fan hfan
  obtain ⟨cp, c0, hphase⟩ := fetch_fans_ok_inv net base host c res c' h
  obtain ⟨objs, hobjs⟩ := fansPhase_ok_inv net base c res.fans cp c0 hphase
  obtain ⟨raw, -, hraw⟩ := mapE_ok_mem fanOfJson objs res.fans hobjs fan hfan
  cases raw with
  | obj fs =>
    refine ⟨fs, hraw, ?_⟩
    have h2 := hraw
    unfold fanOfJson at h2
    dsimp only at h2
    split at h2
    · injection h2 with h2
      rw [← h2]
    · cases h2
  | none => cases hraw
  | bool b => cases hraw
  | int n => cases hraw
  | float q => cases hraw
  | str s => cases hraw
  | arr xs => cases hraw

/-- The fan record the zero-`Reading` fan normalizes to. -/
def fanZeroRec : Fan :=
  { name := .str "FAN1", context := PyVal.none, member_id := .int 1,
    rpm := .int 3000, units := .str "RPM", state := .str "Enabled",
    health := .str "OK", lower_noncrit := PyVal.none, lower_crit := PyVal.none,
    upper_noncrit := PyVal.none, upper_crit := PyVal.none, odata_id := PyVal.none }

/-- Witness for `fan_reading_rule` over the zero-`Reading` network. -/
theorem fan_reading_rule_witness :
    ∃ fs : List (String × PyVal),
      fanOfJson (.obj fs) = .ok fanZeroRec ∧
      fanZeroRec.rpm =
        (match _num (pyOr (objGet fs "Reading") (objGet fs "ReadingRPM")) with
         | .none => pyOr (objGet fs "Reading") (objGet fs "ReadingRPM")
         | w => w) :=
  fan_reading_rule netReadingZero "https://h" "h" Option.none
    { fans := [fanZeroRec], device := frEmpty.device }
    (some (.str "/redfish/v1/Chassis/1")) rfl fanZeroRec (by simp)

/-- A successful dict lookup returns one of the dict's bindings. -/
theorem lookupLast_mem (m : List (String × Rail)) (k : String) (r : Rail)
    (h : lookupLast m k = some r) : (k, r) ∈ m := by
  induction m with
  | nil => cases h
  | cons kv rest ih =>
    unfold lookupLast at h
    cases hrest : lookupLast rest k with
    | some v =>
      rw [hrest] at h
      injection h with h
      subst h
      exact List.mem_cons_of_mem kv (ih hrest)
    | none =>
      rw [hrest] at h
      by_cases hk : kv.1 = k
      · rw [if_pos hk] at h
        injection h with h
        subst h
        subst hk
        exact List.mem_cons_self kv rest
      · rw [if_neg hk] at h
        cases h

/-- A key bound by no binding looks up to `None`. -/
theorem lookupLast_none_of (m : List (String × Rail)) (k : String)
    (h : ∀ kv ∈ m, kv.1 ≠ k) : lookupLast m k = Option.none := by
  induction m with
  | nil => rfl
  | cons kv rest ih =>
    unfold lookupLast
    rw [ih (fun kv' hkv' => h kv' (List.mem_cons_of_mem kv hkv'))]
    rw [if_neg (h kv (List.mem_cons_self kv rest))]

/-- When every binding of a key carries the same value, the lookup finds
exactly that value. -/
theorem lookupLast_unique (m : List (String × Rail)) (k : String) (r : Rail)
    (hmem : (k, r) ∈ m) (huniq : ∀ kv ∈ m, kv.1 = k → kv.2 = r) :
    lookupLast m k = some r := by
  induction m with
  | nil => cases hmem
  | cons kv rest ih =>
    unfold lookupLast
    cases hrest : lookupLast rest k with
    | some v =>
      have hv : (k, v) ∈ rest := lookupLast_mem rest k v hrest
      have hvr : v = r := huniq (k, v) (List.mem_cons_of_mem kv hv) rfl
      subst hvr
      rfl
    | none =>
      rcases List.mem_cons.mp hmem with hkv | hmem'
      · rw [← hkv]
        simp
      · have := ih hmem' (fun kv' hkv' hk => huniq kv' (List.mem_cons_of_mem kv hkv') hk)
        rw [hrest] at this
        cases this

/-- Membership in the `rails_by_mid` binding list. -/
theorem railsByMid_mem (rails : List Rail) (k : String) (r : Rail) :
    (k, r) ∈ railsByMid rails ↔
      r ∈ rails ∧ railKeeps r = true ∧ k = pyStrOf r.member_id := by
  unfold railsByMid
  rw [List.mem_filterMap]
  constructor
  · rintro ⟨a, ha, hfa⟩
    by_cases hk : railKeeps a = true
    · rw [if_pos hk] at hfa
      injection hfa with hfa
      obtain ⟨h1, h2⟩ := Prod.mk.injEq .. ▸ hfa
      · simp only [Prod.mk.injEq] at hfa
        obtain ⟨hk', hr'⟩ := hfa
        subst hr'
        exact ⟨ha, hk, hk'.symm⟩
    · rw [if_neg hk] at hfa
      cases hfa
  · rintro ⟨hmem, hk, hkey⟩
    exact ⟨r, hmem, by rw [if_pos hk, hkey]⟩

/-- Unfolding of the `rails_by_mid` filter. -/
theorem railKeeps_iff (r : Rail) :
    railKeeps r = true ↔
      r.context = PyVal.str "PowerSupply" ∧ r.member_id ≠ PyVal.none := by
  unfold railKeeps
  cases hc : r.context <;> cases hm : r.member_id <;> simp

/-- The stitched voltage of a normalized PSU is the `volts` of the rail its
member-id string looks up in the rail dict, `None` when absent. -/
theorem psuOfJson_voltage (m : List (String × Rail)) (raw : PyVal) (p : Psu)
    (h : psuOfJson m raw = .ok p) :
    p.voltage =
      (match lookupLast m (pyStrOf p.member_id) with
       | some r => r.volts
       | Option.none => PyVal.none) := by
  cases raw with
  | obj fs =>
    unfold psuOfJson at h
    dsimp only at h
    split at h
    · injection h with h
      rw [← h]
    · cases h
  | none => cases h
  | bool b => cases h
  | int n => cases h
  | float q => cases h
  | str s => cases h
  | arr xs => cases h

/-- Inversion for `fetch_power`: the PSUs of a successful result are the
image of the raw `PowerSupplies` entries under `psuOfJson` stitched
against the dict built from the result's own voltage rails. -/
theorem fetch_power_ok_inv (net : Net) (base : String) (c : Option PyVal)
    (res : PowerResult) (c' : Option PyVal)
    (h : fetch_power net base c = .ok (res, c')) :
    ∃ psuRaws, mapE (psuOfJson (railsByMid res.voltages)) psuRaws = .ok res.psus := by
  unfold fetch_power at h
  repeat' split at h
  all_goals
    first
      | exact Except.noConfusion h
      | (injection h with h
         simp only [Prod.mk.injEq] at h
         obtain ⟨hr, -⟩ := h
         subst hr
         exact ⟨_, by assumption⟩)

/-- C3: in every successful `fetch_power` result, a PSU with member id 1
takes its `voltage` from the unique rail whose physical context is
"PowerSupply" and whose member id is 1; a PSU for which no rail has
context "PowerSupply" with a matching member-id string has `voltage`
absent. -/
theorem psu_rail_stitching :
    ∀ (net : Net) (base : String) (c : Option PyVal)
      (res : PowerResult) (c' : Option PyVal),
      fetch_power net base c = .ok (res, c') →
      ∀ p ∈ res.psus,
        ((∀ r ∈ res.voltages,
            ¬(r.context = PyVal.str "PowerSupply" ∧
              pyStrOf r.member_id = pyStrOf p.member_id)) →
          p.voltage = PyVal.none) ∧
        (∀ r ∈ res.voltages,
          p.member_id = PyVal.int 1 → r.member_id = PyVal.int 1 →
          r.context = PyVal.str "PowerSupply" →
          (∀ r' ∈ res.voltages, r'.context = PyVal.str "PowerSupply" →
            pyStrOf r'.member_id = "1" → r' = r) →
          p.voltage = r.volts) := by
  intro net base c res c' h p hp
  obtain ⟨psuRaws, hmap⟩ := fetch_power_ok_inv net base c res c' h
  obtain ⟨raw, -, hraw⟩ := mapE_ok_mem _ psuRaws res.psus hmap p hp
  have hvolt := psuOfJson_voltage _ raw p hraw
  constructor
  · intro hnone
    have hlk : lookupLast (railsByMid res.voltages) (pyStrOf p.member_id) =
        Option.none := by
      apply lookupLast_none_of
      intro kv hkv hk1
      obtain ⟨k0, r0⟩ := kv
      obtain ⟨hmem0, hkeep0, hkey0⟩ := (railsByMid_mem res.voltages k0 r0).mp hkv
      obtain ⟨hctx0, -⟩ := (railKeeps_iff r0).mp hkeep0
      exact hnone r0 hmem0 ⟨hctx0, by rw [← hkey0]; exact hk1⟩
    rw [hlk] at hvolt
    exact hvolt
  · intro r hr hp1 hr1 hctx huniq
    have hkeep : railKeeps r = true :=
      (railKeeps_iff r).mpr ⟨hctx, by rw [hr1]; intro hh; exact PyVal.noConfusion hh⟩
    have hmemEntry : (pyStrOf r.member_id, r) ∈ railsByMid res.voltages :=
      (railsByMid_mem res.voltages (pyStrOf r.member_id) r).mpr ⟨hr, hkeep, rfl⟩
    have hkey : pyStrOf r.member_id = "1" := by rw [hr1]; rfl
    have hpkey : pyStrOf p.member_id = "1" := by rw [hp1]; rfl
    have hlk : lookupLast (railsByMid res.voltages) "1" = some r := by
      apply lookupLast_unique
      · rw [← hkey]
        exact hmemEntry
      · intro kv hkv hk1
        obtain ⟨k0, r0⟩ := kv
        obtain ⟨hmem0, hkeep0, hkey0⟩ := (railsByMid_mem res.voltages k0 r0).mp hkv
        obtain ⟨hctx0, -⟩ := (railKeeps_iff r0).mp hkeep0
        exact huniq r0 hmem0 hctx0 (by rw [← hkey0]; exact hk1)
    rw [hpkey, hlk] at hvolt
    exact hvolt

/-- A full Power resource: one PSU with `MemberID` "1" and one matching
"PowerSupply" rail. -/
def powerDocFull : PyVal := .obj [
  ("PowerControl", .obj [
    ("PowerConsumedWatts", .int 120),
    ("PowerMetric", .obj [
      ("MinConsumedWatts", .int 100), ("AverageConsumedWatts", .int 110),
      ("MaxConsumedWatts", .int 130), ("IntervalInMin", .int 30)])]),
  ("Voltages", .arr [.obj [
    ("MemberID", .str "1"), ("Name", .str "PSU1_VOUT"),
    ("PhysicalContext", .str "PowerSupply"), ("ReadingVolts", .str "12.2"),
    ("Status", .obj [("State", .str "Enabled")]),
    ("@odata.id", .str "/redfish/v1/Chassis/1/Power#/Voltages/0")]]),
  ("PowerSupplies", .arr [.obj [
    ("MemberID", .str "1"), ("Name", .str "PSU1"),
    ("LastPowerOutputWatts", .int 60), ("LineInputVoltage", .int 228),
    ("Status", .obj [("State", .str "Enabled")]),
    ("@odata.id", .str "/redfish/v1/Chassis/1/Power#/PowerSupplies/0")]])]

/-- Network serving `powerDocFull`. -/
def netPowerFull : Net := fun url =>
  if url = "https://h/redfish/v1/Chassis" then okJson chassisColl
  else if url = "https://h/redfish/v1/Chassis/1/Power" then okJson powerDocFull
  else .error .connectionError

/-- The rail record `fetch_power` builds from `powerDocFull`. -/
def railFull : Rail :=
  { member_id := .int 1, name := .str "PSU1_VOUT",
    context := .str "PowerSupply", volts := .float (mkRat 61 5),
    lower_noncrit := PyVal.none, lower_crit := PyVal.none,
    upper_noncrit := PyVal.none, upper_crit := PyVal.none,
    state := .str "Enabled", health := PyVal.none, sensor_number := PyVal.none,
    odata_id := .str "/redfish/v1/Chassis/1/Power#/Voltages/0" }

/-- The PSU record `fetch_power` builds from `powerDocFull`, with the
stitched rail voltage. -/
def psuFull : Psu :=
  { member_id := .int 1, name := .str "PSU1", state := .str "Enabled",
    last_power := .int 60, line_input_volts := .int 228, serial := PyVal.none,
    model := PyVal.none, part_number := PyVal.none,
    spare_part_number := PyVal.none,
    odata_id := .str "/redfish/v1/Chassis/1/Power#/PowerSupplies/0",
    voltage := .float (mkRat 61 5),
    voltage_odata_id := .str "/redfish/v1/Chassis/1/Power#/Voltages/0" }

/-- The power block of `powerDocFull`. -/
def powerFull : PowerRec :=
  { consumed_watts := .int 120, min_watts := .int 100, avg_watts := .int 110,
    max_watts := .int 130, interval_min := .int 30 }

/-- Witness for `psu_rail_stitching` over `netPowerFull`: the PSU's
stitched voltage equals the matching rail's reading. -/
theorem psu_rail_stitching_witness : psuFull.voltage = railFull.volts :=
  ((psu_rail_stitching netPowerFull "https://h" Option.none
      { power := powerFull, psus := [psuFull], voltages := [railFull] }
      (some (.str "/redfish/v1/Chassis/1")) rfl psuFull (by simp)).2
    railFull (by simp) rfl rfl rfl
    (fun r' hr' _ _ => by simpa using hr'))
